import Mathlib

/-!
Verification development for the drilling-simulation core: a shallow
embedding of the subsurface `FormationModel` and the `SimulationEngine`
(physics tick, event detector, equipment health, risk aggregator,
terminal evaluator, checkpoint store), together with theorems settling
the specification's testable properties.

Modelling conventions:
* JavaScript numbers are embedded as `ℚ`; tick counters as `ℕ`.
* Wall-clock reads (`Date.now()`, ISO timestamps) are an external input,
  passed to each operation as a `now : ℕ` parameter and stored as `ℕ`.
* `Math.random()` is an external input, passed to the tick as `rand : ℚ`.
* Human-readable message strings are kept but numeric interpolation
  (`toFixed`) inside them is abstracted away; no logic reads them.
* JS records with a known fixed key set (`warningTimers`,
  `warningTimestamps`, `equipmentStatus`) become structures with one
  field per key; `0` plays the role of a missing/falsy timer entry,
  matching the source's `!this.warningTimers[k]` checks.
-/

namespace Drilling

/-- A subsurface formation layer (fields as in the source; `kickRisk` is
absent until back-filled, hence an `Option`). -/
structure Layer where
  name : String
  depth : ℚ
  thickness : ℚ
  porePressure : ℚ
  fracturePressure : ℚ
  permeability : ℚ
  lithology : String
  kickRisk : Option ℚ := none
  deriving DecidableEq

/-- Rock properties returned by `getPropertiesAtDepth` (note: the source
object has no `kickRisk` key, so later `props.kickRisk || d` reads give `d`). -/
structure FormationProps where
  porePressure : ℚ
  fracturePressure : ℚ
  permeability : ℚ
  lithology : String
  deriving DecidableEq

/-- JS `x.kickRisk || d` on an optional layer field: `undefined` and `0`
are both falsy and give the default. -/
def jsOr (x : Option ℚ) (d : ℚ) : ℚ :=
  match x with
  | none => d
  | some v => if v = 0 then d else v

/-- The formation model: an ordered list of layers. -/
structure FormationModel where
  layers : List Layer
  deriving DecidableEq

/-- The default layers installed by the source constructor
(`initializeDefaultLayers`). -/
def defaultLayers : List Layer :=
  [ ⟨"Topsoil", 0, 500, 8.5, 12.0, 0.01, "sand", none⟩,
    ⟨"Shale", 500, 1000, 9.2, 14.5, 0.001, "shale", none⟩,
    ⟨"Reservoir", 1500, 800, 11.0, 15.0, 0.5, "sandstone", none⟩,
    ⟨"Overpressured Zone", 2300, 500, 14.0, 16.5, 0.05, "limestone", none⟩ ]

/-- `new FormationModel()`. -/
def FormationModel.init : FormationModel := ⟨defaultLayers⟩

/-- The linear scan of `getLayerAtDepth`: first layer whose
`[depth, depth+thickness)` range contains the query. -/
def findContainingLayer : List Layer → ℚ → Option Layer
  | [], _ => none
  | l :: ls, d =>
    if l.depth ≤ d ∧ d < l.depth + l.thickness then some l
    else findContainingLayer ls d

/-- `FormationModel.getLayerAtDepth`: scan for a containing layer; if none
and the depth is at or beyond the deepest layer's top, that layer extends
downward to infinity; otherwise no layer. -/
def FormationModel.getLayerAtDepth (m : FormationModel) (depth : ℚ) : Option Layer :=
  match findContainingLayer m.layers depth with
  | some l => some l
  | none =>
    match m.layers.getLast? with
    | some last => if last.depth ≤ depth then some last else none
    | none => none

/-- The index scan of `getLayerIndexAtDepth` (1-based). -/
def findContainingIndex : List Layer → ℚ → ℕ → Option ℕ
  | [], _, _ => none
  | l :: ls, d, i =>
    if l.depth ≤ d ∧ d < l.depth + l.thickness then some (i + 1)
    else findContainingIndex ls d (i + 1)

/-- `FormationModel.getLayerIndexAtDepth`. -/
def FormationModel.getLayerIndexAtDepth (m : FormationModel) (depth : ℚ) : ℕ :=
  match findContainingIndex m.layers depth 0 with
  | some i => i
  | none =>
    match m.layers.getLast? with
    | some last => if last.depth ≤ depth then m.layers.length else 1
    | none => 1

/-- The default properties returned when no layer contains the depth. -/
def defaultFormationProps : FormationProps :=
  { porePressure := 9.0, fracturePressure := 14.0, permeability := 0.1,
    lithology := "sandstone" }

/-- `FormationModel.getPropertiesAtDepth`: linear pressure gradients across
the containing layer's thickness. -/
def FormationModel.getPropertiesAtDepth (m : FormationModel) (depth : ℚ) :
    FormationProps :=
  match m.getLayerAtDepth depth with
  | none => defaultFormationProps
  | some layer =>
    let depthInLayer := depth - layer.depth
    let depthFactor := depthInLayer / layer.thickness
    { porePressure := layer.porePressure + depthFactor * 0.1,
      fracturePressure := layer.fracturePressure + depthFactor * 0.15,
      permeability := layer.permeability,
      lithology := layer.lithology }

/-- Layers listed in depth order without overlapping ranges (the data-model
invariant: each layer's bottom is at or above the next layer's top). -/
def LayersDisjoint (ls : List Layer) : Prop :=
  ls.Chain' fun a b => a.depth + a.thickness ≤ b.depth

lemma bottom_le_top_of_mem {e : Layer} {ls : List Layer}
    (hord : List.Chain' (fun a b => a.depth + a.thickness ≤ b.depth) (e :: ls))
    (hpos : ∀ l ∈ e :: ls, 0 < l.thickness) {L : Layer} (hL : L ∈ ls) :
    e.depth + e.thickness ≤ L.depth := by
  induction ls generalizing e with
  | nil => cases hL
  | cons f fs ih =>
    rcases List.chain'_cons.mp hord with ⟨hef, hrest⟩
    rcases List.mem_cons.mp hL with rfl | hL'
    · exact hef
    · have hf : f.depth + f.thickness ≤ L.depth :=
        ih hrest (fun l hl => hpos l (List.mem_cons_of_mem _ hl)) hL'
      have hft : 0 < f.thickness := hpos f (by simp)
      linarith

/-- Under the sorted/disjoint invariant, the scan resolves a depth inside a
layer's range to that layer. -/
lemma findContainingLayer_eq_of_mem {ls : List Layer} {L : Layer} {D : ℚ}
    (hord : LayersDisjoint ls) (hpos : ∀ l ∈ ls, 0 < l.thickness)
    (hL : L ∈ ls) (hDlo : L.depth ≤ D) (hDhi : D < L.depth + L.thickness) :
    findContainingLayer ls D = some L := by
  induction ls with
  | nil => cases hL
  | cons e es ih =>
    rcases List.mem_cons.mp hL with rfl | hL'
    · unfold findContainingLayer
      rw [if_pos ⟨hDlo, hDhi⟩]
    · have hbot : e.depth + e.thickness ≤ L.depth :=
        bottom_le_top_of_mem hord hpos hL'
      have hne : ¬ (e.depth ≤ D ∧ D < e.depth + e.thickness) := by
        rintro ⟨-, h2⟩; linarith
      unfold findContainingLayer
      rw [if_neg hne]
      exact ih (List.Chain'.tail hord)
        (fun l hl => hpos l (List.mem_cons_of_mem _ hl)) hL'

lemma getLayerAtDepth_eq_of_mem {m : FormationModel} {L : Layer} {D : ℚ}
    (hord : LayersDisjoint m.layers) (hpos : ∀ l ∈ m.layers, 0 < l.thickness)
    (hL : L ∈ m.layers) (hDlo : L.depth ≤ D) (hDhi : D < L.depth + L.thickness) :
    m.getLayerAtDepth D = some L := by
  unfold FormationModel.getLayerAtDepth
  rw [findContainingLayer_eq_of_mem hord hpos hL hDlo hDhi]

lemma getPropertiesAtDepth_in_layer {m : FormationModel} {L : Layer} {D : ℚ}
    (hord : LayersDisjoint m.layers) (hpos : ∀ l ∈ m.layers, 0 < l.thickness)
    (hL : L ∈ m.layers) (hDlo : L.depth ≤ D) (hDhi : D < L.depth + L.thickness) :
    (m.getPropertiesAtDepth D).porePressure =
      L.porePressure + (D - L.depth) / L.thickness * 0.1 := by
  unfold FormationModel.getPropertiesAtDepth
  rw [getLayerAtDepth_eq_of_mem hord hpos hL hDlo hDhi]

/-- C9: within a layer of positive thickness, pore pressure from
`getPropertiesAtDepth` is monotone non-decreasing in depth, and at the
layer's own top boundary it equals the layer's base pore pressure. -/
theorem porePressure_monotone_in_layer (m : FormationModel) (L : Layer)
    (D1 D2 : ℚ) (hord : LayersDisjoint m.layers)
    (hpos : ∀ l ∈ m.layers, 0 < l.thickness) (hL : L ∈ m.layers)
    (h1lo : L.depth ≤ D1) (h1hi : D1 < L.depth + L.thickness)
    (h2lo : L.depth ≤ D2) (h2hi : D2 < L.depth + L.thickness)
    (h12 : D1 ≤ D2) :
    (m.getPropertiesAtDepth D1).porePressure ≤
      (m.getPropertiesAtDepth D2).porePressure ∧
    (m.getPropertiesAtDepth L.depth).porePressure = L.porePressure := by
  have hth : 0 < L.thickness := hpos L hL
  constructor
  · rw [getPropertiesAtDepth_in_layer hord hpos hL h1lo h1hi,
      getPropertiesAtDepth_in_layer hord hpos hL h2lo h2hi]
    have hdiv : (D1 - L.depth) / L.thickness ≤ (D2 - L.depth) / L.thickness :=
      (div_le_div_iff_of_pos_right hth).mpr (by linarith)
    have hmul : (D1 - L.depth) / L.thickness * (0.1 : ℚ) ≤
        (D2 - L.depth) / L.thickness * 0.1 :=
      mul_le_mul_of_nonneg_right hdiv (by norm_num)
    linarith
  · rw [getPropertiesAtDepth_in_layer hord hpos hL le_rfl (by linarith)]
    simp

/-- Witness for C9 on the default four-layer model: the Reservoir layer
(top 1500, thickness 800) at depths 1600 ≤ 2000. -/
theorem porePressure_monotone_in_layer_witness :
    (FormationModel.init.getPropertiesAtDepth 1600).porePressure ≤
      (FormationModel.init.getPropertiesAtDepth 2000).porePressure ∧
    (FormationModel.init.getPropertiesAtDepth 1500).porePressure = 11.0 :=
  porePressure_monotone_in_layer FormationModel.init
    ⟨"Reservoir", 1500, 800, 11.0, 15.0, 0.5, "sandstone", none⟩ 1600 2000
    (by simp [LayersDisjoint, FormationModel.init, defaultLayers,
      List.chain'_cons]; norm_num)
    (by intro l hl
        simp [FormationModel.init, defaultLayers] at hl
        rcases hl with rfl | rfl | rfl | rfl <;> norm_num)
    (by simp [FormationModel.init, defaultLayers])
    (by norm_num) (by norm_num) (by norm_num) (by norm_num) (by norm_num)

/-- C10: whenever `getLayerAtDepth` yields no layer, `getPropertiesAtDepth`
returns exactly the documented default record. -/
theorem getPropertiesAtDepth_default (m : FormationModel) (D : ℚ)
    (h : m.getLayerAtDepth D = none) :
    m.getPropertiesAtDepth D =
      { porePressure := 9.0, fracturePressure := 14.0, permeability := 0.1,
        lithology := "sandstone" } := by
  unfold FormationModel.getPropertiesAtDepth
  rw [h]
  rfl

/-- Witness for C10: a negative depth lies above the default model's first
layer, so the default record is returned. -/
theorem getPropertiesAtDepth_default_witness :
    FormationModel.init.getPropertiesAtDepth (-5) =
      { porePressure := 9.0, fracturePressure := 14.0, permeability := 0.1,
        lithology := "sandstone" } :=
  getPropertiesAtDepth_default FormationModel.init (-5) (by decide)

/-! ## Simulation engine: data model -/

/-- An entry of the terse event log (`eventLog`) and of the per-tick
`currentData.events` list. -/
structure DrillEvent where
  type : String
  time : ℕ
  depth : ℚ
  layer : ℕ
  severity : String
  description : String
  deriving DecidableEq

/-- Structured parameter payloads attached to timeline events, one shape
per source call site. -/
inductive TimelineParams where
  | bopActivation (depth gasLevel : ℚ)
  | kickHandled (depth gasLevel mudWeight : ℚ)
  | formationTransition (depth : ℚ) (lithology : String)
      (porePressure fracturePressure : ℚ)
  | riskChange (previousRisk currentRisk : ℤ) (riskType : Option String)
  | checkpoint (depth : ℚ) (id : String)
  | checkpointLoaded (depth : ℚ) (id : String)
  | kickDetected (depth formationPressure hydrostaticPressure mudWeight : ℚ)
  | lostCirculation (depth fracturePressure mudWeight standpipePressure : ℚ)
  deriving DecidableEq

/-- A richer timeline entry; the source's random unique id is abstracted to
the `now` counter supplied at creation. -/
structure TimelineEvent where
  id : ℕ
  type : String
  time : ℕ
  description : String
  severity : String
  parameters : TimelineParams
  deriving DecidableEq

/-- The payload logged with a user action. -/
inductive ActionValue where
  | num (v : ℚ)
  | str (v : String)
  | trip (direction : String) (speed : ℚ)
  | null
  deriving DecidableEq

/-- An action-log entry with the snapshot of drilling parameters the
source attaches. -/
structure ActionRecord where
  action : String
  value : ActionValue
  time : ℕ
  depth : ℚ
  rop : ℚ
  pumpPressure : ℚ
  pitLevel : ℚ
  gasLevel : ℚ
  mudWeight : ℚ
  deriving DecidableEq

structure MissedWarning where
  warning : String
  time : ℕ
  requiredAction : String
  timeAllowed : String
  deriving DecidableEq

/-- The `gameOverDetails` record built by `triggerGameOver`. -/
structure GameOverDetails where
  description : String
  consequence : String
  preventionTips : List String
  time : ℕ
  depth : ℚ
  elapsedTime : ℚ
  rop : ℚ
  pumpPressure : ℚ
  pitLevel : ℚ
  gasLevel : ℚ
  mudWeight : ℚ
  standpipePressure : ℚ
  annularPressure : ℚ
  formationPressure : ℚ
  missedWarnings : List MissedWarning
  actionLog : List ActionRecord
  deriving DecidableEq

structure PumpStatus where
  health : ℚ
  overuseDuration : ℚ
  deriving DecidableEq

structure DrillStringStatus where
  health : ℚ
  vibration : ℚ
  torque : ℚ
  deriving DecidableEq

structure BopUnitStatus where
  health : ℚ
  lastClosed : ℕ
  deriving DecidableEq

structure EquipmentStatus where
  pumps : PumpStatus
  drillString : DrillStringStatus
  bop : BopUnitStatus
  deriving DecidableEq

/-- The derived per-tick simulation data (`currentData`). -/
structure SimulationData where
  rop : ℚ
  pumpPressure : ℚ
  pitLevel : ℚ
  standpipePressure : ℚ
  gasLevel : ℚ
  bitDepth : ℚ
  hookload : ℚ
  mudWeight : ℚ
  mudTemperature : ℚ
  formationPressure : ℚ
  annularPressure : ℚ
  torque : ℚ
  rpm : ℚ
  chokePosition : ℚ
  bopStatus : String
  events : List DrillEvent
  deriving DecidableEq

/-- Operator control settings. -/
structure ControlState where
  rop : ℚ
  pumpRate : ℚ
  rotarySpeed : ℚ
  mudWeight : ℚ
  chokePosition : ℚ
  bopStatus : String
  hookPosition : ℚ
  drawworks : String
  deriving DecidableEq

/-- A partial control update, as passed to `setControls` (absent keys are
`none`). -/
structure PartialControls where
  rop : Option ℚ := none
  pumpRate : Option ℚ := none
  rotarySpeed : Option ℚ := none
  mudWeight : Option ℚ := none
  chokePosition : Option ℚ := none
  bopStatus : Option String := none
  hookPosition : Option ℚ := none
  drawworks : Option String := none
  deriving DecidableEq

structure TrippingStatus where
  isTripping : Bool
  direction : String
  speed : ℚ
  lastDepth : ℚ
  lastTime : ℕ
  deriving DecidableEq

/-- The deep-copied snapshot stored in a checkpoint. -/
structure CheckpointState where
  currentData : SimulationData
  controls : ControlState
  equipmentStatus : EquipmentStatus
  casingDepth : ℚ
  simulationTime : ℕ
  deriving DecidableEq

structure Checkpoint where
  id : String
  name : String
  timestamp : ℕ
  depth : ℚ
  automatic : Bool
  state : CheckpointState
  deriving DecidableEq

structure FormationTransition where
  time : ℕ
  depth : ℚ
  fromFormation : String
  toFormation : String
  lithology : String
  porePressure : ℚ
  fracturePressure : ℚ
  permeability : ℚ
  kickRisk : ℚ
  deriving DecidableEq

/-- A time-series sample appended by `addToLogs`. -/
structure LogEntry where
  time : ℕ
  depth : ℚ
  rop : ℚ
  pumpPressure : ℚ
  standpipePressure : ℚ
  pitLevel : ℚ
  gasLevel : ℚ
  mudWeight : ℚ
  formationPressure : ℚ
  annularPressure : ℚ
  torque : ℚ
  rpm : ℚ
  hookload : ℚ
  deriving DecidableEq

/-- The warning-presence timers keyed by warning kind in the source's
`warningTimers` string map; `0` means absent/cleared. -/
structure WarningTimers where
  gasInflux : ℕ := 0
  kick : ℕ := 0
  lostCirculation : ℕ := 0
  severeLostCirculation : ℕ := 0
  highVibration : ℕ := 0
  highTorque : ℕ := 0
  bopWithRotation : ℕ := 0
  swabKick : ℕ := 0
  surgeLoss : ℕ := 0
  deriving DecidableEq

/-- Wall-clock timestamps recorded alongside the timers
(`warningTimestamps`). -/
structure WarningTimestamps where
  gasInflux : ℕ := 0
  kick : ℕ := 0
  lostCirculation : ℕ := 0
  severeLostCirculation : ℕ := 0
  highVibration : ℕ := 0
  highTorque : ℕ := 0
  bopWithRotation : ℕ := 0
  swabKick : ℕ := 0
  surgeLoss : ℕ := 0
  deriving DecidableEq

/-- The full engine state (the private fields of class `SimulationEngine`).
The JS interval handle is abstracted to the Bool `simulationInterval`. -/
structure SimulationEngine where
  running : Bool
  paused : Bool
  speed : ℚ
  trainingMode : Bool
  wellType : String
  formation : Option FormationModel
  simulationInterval : Bool
  simulationTime : ℕ
  elapsedTime : ℚ
  currentData : SimulationData
  controls : ControlState
  logData : List LogEntry
  eventLog : List DrillEvent
  scenario : String
  gameOver : Bool
  gameOverReason : String
  gameOverDetails : Option GameOverDetails
  warningTimers : WarningTimers
  warningTimestamps : WarningTimestamps
  missedWarnings : List MissedWarning
  actionLog : List ActionRecord
  equipmentStatus : EquipmentStatus
  casingDepth : ℚ
  lastCasingRun : ℕ
  trippingStatus : TrippingStatus
  checkpoints : List Checkpoint
  timelineEvents : List TimelineEvent
  lastRiskLevel : ℚ
  riskDecaying : Bool
  formationTransitions : List FormationTransition
  lastFormationDepth : ℚ
  currentFormation : Option Layer
  bopActivations : ℕ
  kicksHandled : ℕ
  targetDepth : ℚ
  previousGasLevel : ℚ
  deriving DecidableEq

/-! ## Simulation engine: initial state and helpers -/

/-- The initial `currentData` object. -/
def initialData : SimulationData :=
  { rop := 0, pumpPressure := 0, pitLevel := 50, standpipePressure := 0,
    gasLevel := 0, bitDepth := 0, hookload := 250, mudWeight := 10.0,
    mudTemperature := 120, formationPressure := 0, annularPressure := 0,
    torque := 0, rpm := 0, chokePosition := 0, bopStatus := "closed",
    events := [] }

/-- The initial control settings. -/
def initialControls : ControlState :=
  { rop := 50, pumpRate := 50, rotarySpeed := 60, mudWeight := 10,
    chokePosition := 0, bopStatus := "closed", hookPosition := 0,
    drawworks := "locked" }

/-- The initial equipment status. -/
def initialEquipment : EquipmentStatus :=
  { pumps := { health := 100, overuseDuration := 0 },
    drillString := { health := 100, vibration := 0, torque := 0 },
    bop := { health := 100, lastClosed := 0 } }

/-- The initial tripping status. -/
def initialTripping : TrippingStatus :=
  { isTripping := false, direction := "none", speed := 0, lastDepth := 0,
    lastTime := 0 }

/-- The engine state produced by the constructor (field initializers, then
`reset()`, then empty checkpoint/timeline/transition lists). -/
def engineInit : SimulationEngine :=
  { running := false, paused := false, speed := 1, trainingMode := true,
    wellType := "vertical", formation := none, simulationInterval := false,
    simulationTime := 0, elapsedTime := 0, currentData := initialData,
    controls := initialControls, logData := [], eventLog := [],
    scenario := "normal", gameOver := false, gameOverReason := "",
    gameOverDetails := none, warningTimers := {}, warningTimestamps := {},
    missedWarnings := [], actionLog := [], equipmentStatus := initialEquipment,
    casingDepth := 0, lastCasingRun := 0, trippingStatus := initialTripping,
    checkpoints := [], timelineEvents := [], lastRiskLevel := 0,
    riskDecaying := false, formationTransitions := [], lastFormationDepth := 0,
    currentFormation := none, bopActivations := 0, kicksHandled := 0,
    targetDepth := 0, previousGasLevel := 0 }

namespace SimulationEngine

/-- `isGameOver()`. -/
def isGameOver (s : SimulationEngine) : Bool := s.gameOver

/-- `getCurrentData()` (returned by copy; value semantics here). -/
def getCurrentData (s : SimulationEngine) : SimulationData := s.currentData

/-- `getEventLog()`. -/
def getEventLog (s : SimulationEngine) : List DrillEvent := s.eventLog

/-- `getCheckpoints()`. -/
def getCheckpoints (s : SimulationEngine) : List Checkpoint := s.checkpoints

/-- `getTimelineEvents()`. -/
def getTimelineEvents (s : SimulationEngine) : List TimelineEvent :=
  s.timelineEvents

/-- `pause()`. -/
def pause (s : SimulationEngine) : SimulationEngine := { s with paused := true }

/-- `stop()`. -/
def stop (s : SimulationEngine) : SimulationEngine :=
  { s with running := false, paused := false, simulationInterval := false }

/-- Engine-side `getFormationPropertiesAtDepth`: documented defaults when
no formation model is attached. -/
def getFormationPropertiesAtDepth (s : SimulationEngine) (depth : ℚ) :
    FormationProps :=
  match s.formation with
  | none => defaultFormationProps
  | some f => f.getPropertiesAtDepth depth

/-- Engine-side `getLayerIndexAtDepth` (1 when no formation model). -/
def getLayerIndexAtDepth (s : SimulationEngine) (depth : ℚ) : ℕ :=
  match s.formation with
  | none => 1
  | some f => f.getLayerIndexAtDepth depth

/-- `addTimelineEvent`: append and retain the last 100 entries. -/
def addTimelineEvent (s : SimulationEngine) (e : TimelineEvent) :
    SimulationEngine :=
  let tl := s.timelineEvents ++ [e]
  { s with timelineEvents := if tl.length > 100 then tl.drop (tl.length - 100) else tl }

/-- `logAction`: push an action record with the current parameter snapshot. -/
def logAction (s : SimulationEngine) (action : String) (value : ActionValue)
    (now : ℕ) : SimulationEngine :=
  { s with actionLog := s.actionLog ++
      [{ action := action, value := value, time := now,
         depth := s.currentData.bitDepth, rop := s.currentData.rop,
         pumpPressure := s.currentData.pumpPressure,
         pitLevel := s.currentData.pitLevel,
         gasLevel := s.currentData.gasLevel,
         mudWeight := s.currentData.mudWeight }] }

/-- `triggerGameOver`: records reason and details, appends the critical
game-over event to both logs, and pauses; a no-op when already over. -/
def triggerGameOver (s : SimulationEngine) (reason description consequence :
    String) (tips : List String) (now : ℕ) : SimulationEngine :=
  if s.gameOver then s
  else
    let ev : DrillEvent :=
      { type := "gameOver", time := now, depth := s.currentData.bitDepth,
        layer := s.getLayerIndexAtDepth s.currentData.bitDepth,
        severity := "critical", description := "GAME OVER: " ++ reason }
    { s with
      gameOver := true, gameOverReason := reason,
      gameOverDetails := some
        { description := description, consequence := consequence,
          preventionTips := tips, time := now,
          depth := s.currentData.bitDepth, elapsedTime := s.elapsedTime,
          rop := s.currentData.rop, pumpPressure := s.currentData.pumpPressure,
          pitLevel := s.currentData.pitLevel,
          gasLevel := s.currentData.gasLevel,
          mudWeight := s.currentData.mudWeight,
          standpipePressure := s.currentData.standpipePressure,
          annularPressure := s.currentData.annularPressure,
          formationPressure := s.currentData.formationPressure,
          missedWarnings := s.missedWarnings,
          actionLog := s.actionLog.drop (s.actionLog.length - 20) },
      eventLog := s.eventLog ++ [ev],
      currentData := { s.currentData with events := s.currentData.events ++ [ev] },
      paused := true }

/-- `resetGameOver()`. -/
def resetGameOver (s : SimulationEngine) : SimulationEngine :=
  { s with
    gameOver := false, gameOverReason := "", gameOverDetails := none,
    missedWarnings := [], actionLog := [], warningTimers := {},
    warningTimestamps := {}, equipmentStatus := initialEquipment,
    casingDepth := 0, lastCasingRun := 0, trippingStatus := initialTripping }

/-- `reset()`: stop the clock, clear the terminal state, restore data,
controls and counters, and clear the logs, timeline and transitions.
(The checkpoint list is not touched by the source.) -/
def reset (s : SimulationEngine) : SimulationEngine :=
  let s := resetGameOver (stop s)
  { s with
    simulationTime := 0, elapsedTime := 0, currentData := initialData,
    controls := initialControls, logData := [], eventLog := [],
    timelineEvents := [], formationTransitions := [], lastFormationDepth := 0,
    currentFormation := none, lastRiskLevel := 0, riskDecaying := false }

/-- `createCheckpoint(automatic)`: snapshot the mutable state, retain the
last 10 checkpoints, and (manual only) log a timeline entry. Returns the
checkpoint together with the new state, mirroring the source's return. -/
def createCheckpoint (s : SimulationEngine) (now : ℕ) (automatic : Bool) :
    Checkpoint × SimulationEngine :=
  let depth := s.currentData.bitDepth
  let cp : Checkpoint :=
    { id := "cp_" ++ toString now,
      name := if automatic then "Auto-save" else "Checkpoint",
      timestamp := now, depth := depth, automatic := automatic,
      state := { currentData := s.currentData, controls := s.controls,
                 equipmentStatus := s.equipmentStatus,
                 casingDepth := s.casingDepth,
                 simulationTime := s.simulationTime } }
  let cps := s.checkpoints ++ [cp]
  let s := { s with checkpoints :=
      if cps.length > 10 then cps.drop (cps.length - 10) else cps }
  let s :=
    if automatic then s
    else addTimelineEvent s
      { id := now, type := "checkpoint", time := now,
        description := "Checkpoint created", severity := "info",
        parameters := .checkpoint depth cp.id }
  (cp, s)

/-- `loadCheckpoint(id)`: restore the snapshot of the first checkpoint with
that id, clear the terminal state and log the restoration; `false` and
no-op when the id is unknown. -/
def loadCheckpoint (s : SimulationEngine) (id : String) (now : ℕ) :
    Bool × SimulationEngine :=
  match s.checkpoints.find? (fun cp => cp.id == id) with
  | none => (false, s)
  | some cp =>
    let s := { s with
      currentData := cp.state.currentData,
      controls := cp.state.controls,
      equipmentStatus := cp.state.equipmentStatus,
      casingDepth := cp.state.casingDepth,
      simulationTime := cp.state.simulationTime,
      gameOver := false, gameOverReason := "", gameOverDetails := none }
    let s := addTimelineEvent s
      { id := now, type := "checkpointLoaded", time := now,
        description := "Checkpoint loaded", severity := "info",
        parameters := .checkpointLoaded cp.depth id }
    (true, s)

/-- `setControls(partial)`: count BOP open→closed activations, log each
changed field, then merge into the control state. -/
def setControls (s : SimulationEngine) (pc : PartialControls) (now : ℕ) :
    SimulationEngine :=
  let s :=
    if s.controls.bopStatus = "open" ∧ pc.bopStatus = some "closed" then
      addTimelineEvent { s with bopActivations := s.bopActivations + 1 }
        { id := now, type := "bopActivation", time := now,
          description := "BOP activated", severity := "info",
          parameters := .bopActivation s.currentData.bitDepth
            s.currentData.gasLevel }
    else s
  let logIfChangedQ := fun (st : SimulationEngine) (cur : ℚ)
      (v : Option ℚ) (key : String) =>
    match v with
    | some x => if x ≠ cur then logAction st ("Changed " ++ key) (.num x) now else st
    | none => st
  let logIfChangedS := fun (st : SimulationEngine) (cur : String)
      (v : Option String) (key : String) =>
    match v with
    | some x => if x ≠ cur then logAction st ("Changed " ++ key) (.str x) now else st
    | none => st
  let s := logIfChangedQ s s.controls.rop pc.rop "rop"
  let s := logIfChangedQ s s.controls.pumpRate pc.pumpRate "pumpRate"
  let s := logIfChangedQ s s.controls.rotarySpeed pc.rotarySpeed "rotarySpeed"
  let s := logIfChangedQ s s.controls.mudWeight pc.mudWeight "mudWeight"
  let s := logIfChangedQ s s.controls.chokePosition pc.chokePosition "chokePosition"
  let s := logIfChangedS s s.controls.bopStatus pc.bopStatus "bopStatus"
  let s := logIfChangedQ s s.controls.hookPosition pc.hookPosition "hookPosition"
  let s := logIfChangedS s s.controls.drawworks pc.drawworks "drawworks"
  { s with controls :=
    { rop := pc.rop.getD s.controls.rop,
      pumpRate := pc.pumpRate.getD s.controls.pumpRate,
      rotarySpeed := pc.rotarySpeed.getD s.controls.rotarySpeed,
      mudWeight := pc.mudWeight.getD s.controls.mudWeight,
      chokePosition := pc.chokePosition.getD s.controls.chokePosition,
      bopStatus := pc.bopStatus.getD s.controls.bopStatus,
      hookPosition := pc.hookPosition.getD s.controls.hookPosition,
      drawworks := pc.drawworks.getD s.controls.drawworks } }

end SimulationEngine

/-- JS `String.prototype.includes`, checking that `sub` occurs in `s`
(case-sensitive). -/
def charsLeading : List Char → List Char → Bool
  | [], _ => true
  | _ :: _, [] => false
  | a :: as, b :: bs => a == b && charsLeading as bs

def charsWithin (sub : List Char) : List Char → Bool
  | [] => charsLeading sub []
  | b :: bs => charsLeading sub (b :: bs) || charsWithin sub bs

def jsIncludes (s sub : String) : Bool := charsWithin sub.data s.data

/-- `calculateTorque`: hard lithologies multiply base torque by 1.5. -/
def calculateTorque (rotarySpeed : ℚ) (props : FormationProps) : ℚ :=
  let baseTorque := rotarySpeed * 0.5
  let formationFactor : ℚ :=
    if props.lithology = "limestone" ∨ props.lithology = "dolomite" then 1.5
    else 1.0
  baseTorque * formationFactor

/-- `calculateHookload`: base load grows with depth, scaled per well type. -/
def calculateHookload (depth : ℚ) (wellType : String) : ℚ :=
  let baseHookload := 100 + depth * 0.05
  let wellTypeFactor : ℚ :=
    if wellType = "deviated" then 1.2
    else if wellType = "horizontal" then 1.5
    else 1.0
  baseHookload * wellTypeFactor

/-- `calculatePumpPressure`. -/
def calculatePumpPressure (pumpRate depth : ℚ) : ℚ :=
  let basePressure := pumpRate * 3
  let depthFactor := 1 + depth / 10000 * 0.5
  basePressure * depthFactor

/-- `calculateStandpipePressure`. -/
def calculateStandpipePressure (pumpPressure chokePosition : ℚ) : ℚ :=
  let chokeFactor := 1 + chokePosition / 100 * 0.5
  pumpPressure * chokeFactor

/-- `calculateAnnularPressure`. -/
def calculateAnnularPressure (standpipePressure depth : ℚ) : ℚ :=
  let depthFactor := max 0.5 (1 - depth / 20000)
  standpipePressure * depthFactor

namespace SimulationEngine

/-- `calculateVibration`: rotary speed, ROP, lithology hardness and depth. -/
def calculateVibration (s : SimulationEngine) : ℚ :=
  let baseVibration := s.controls.rotarySpeed * 0.5
  let ropFactor := s.controls.rop / 50
  let props := s.getFormationPropertiesAtDepth s.currentData.bitDepth
  let formationFactor : ℚ :=
    if props.lithology = "limestone" ∨ props.lithology = "dolomite" then 1.5
    else 1.0
  let depthFactor := 1 + s.currentData.bitDepth / 10000 * 0.5
  min 100 (baseVibration * ropFactor * formationFactor * depthFactor)

/-- `checkFormationTransition`: record a transition (and timeline entry)
when the bit enters a layer with a new name. -/
def checkFormationTransition (s : SimulationEngine) (depth : ℚ) (now : ℕ) :
    SimulationEngine :=
  match s.formation with
  | none => s
  | some f =>
    match f.getLayerAtDepth depth with
    | none => { s with lastFormationDepth := depth }
    | some currentLayer =>
      if s.currentFormation.all (fun c => c.name != currentLayer.name) then
        let tr : FormationTransition :=
          { time := now, depth := depth,
            fromFormation :=
              (match s.currentFormation with
               | some c => c.name
               | none => "Surface"),
            toFormation := currentLayer.name,
            lithology := currentLayer.lithology,
            porePressure := currentLayer.porePressure,
            fracturePressure := currentLayer.fracturePressure,
            permeability := currentLayer.permeability,
            kickRisk := jsOr currentLayer.kickRisk 0.1 }
        let s := { s with
          formationTransitions := s.formationTransitions ++ [tr],
          currentFormation := some currentLayer }
        let s := addTimelineEvent s
          { id := now, type := "formationTransition", time := now,
            description := "Entered formation", severity := "info",
            parameters := .formationTransition depth currentLayer.lithology
              currentLayer.porePressure currentLayer.fracturePressure }
        { s with lastFormationDepth := depth }
      else { s with lastFormationDepth := depth }

/-- The guard of the kick branch of `checkForEvents`; `Math.random()` is
consulted only when it holds. -/
def kickConditionHolds (s : SimulationEngine) (props : FormationProps) : Prop :=
  s.currentData.bitDepth > 500 ∧
    props.porePressure > s.currentData.mudWeight * 0.052 * s.currentData.bitDepth ∧
    s.currentData.pitLevel < 100

instance (s : SimulationEngine) (props : FormationProps) :
    Decidable (kickConditionHolds s props) := by
  unfold kickConditionHolds; exact inferInstance

/-- `checkForEvents`: probabilistic kick detection past 500 ft, then lost
circulation above fracture pressure, each logged once per sustained
occurrence via its warning timer. -/
def checkForEvents (s : SimulationEngine) (props : FormationProps)
    (rand : ℚ) (now : ℕ) : SimulationEngine :=
  let hydrostaticPressure :=
    s.currentData.mudWeight * 0.052 * s.currentData.bitDepth
  let s :=
    if kickConditionHolds s props then
      let pressureDifferential := props.porePressure - hydrostaticPressure
      -- The properties record carries no `kickRisk` key, so the source's
      -- `formationProps.kickRisk || 0.2` always evaluates to 0.2 here.
      let formationKickRisk : ℚ := 0.2
      let kickProbability :=
        min 1 (pressureDifferential * 0.1 * formationKickRisk)
      if rand < kickProbability then
        let s := { s with currentData := { s.currentData with
          gasLevel := s.currentData.gasLevel + pressureDifferential * 0.1,
          pitLevel := s.currentData.pitLevel + pressureDifferential * 0.05 } }
        if s.warningTimers.kick = 0 then
          let kickEvent : DrillEvent :=
            { type := "kick", time := now, depth := s.currentData.bitDepth,
              layer := s.getLayerIndexAtDepth s.currentData.bitDepth,
              severity := "warning",
              description := "Potential kick detected - formation pressure exceeds hydrostatic pressure" }
          let s := { s with
            warningTimers.kick := s.simulationTime,
            warningTimestamps.kick := now,
            eventLog := s.eventLog ++ [kickEvent],
            currentData.events := s.currentData.events ++ [kickEvent] }
          addTimelineEvent s
            { id := now, type := "kickDetected", time := now,
              description := "Kick detected", severity := "critical",
              parameters := .kickDetected s.currentData.bitDepth
                props.porePressure hydrostaticPressure
                s.currentData.mudWeight }
        else s
      else s
    else { s with warningTimers.kick := 0 }
  if s.currentData.mudWeight > props.fracturePressure ∨
      s.currentData.standpipePressure > props.fracturePressure * 150 then
    let lossRate :=
      max ((s.currentData.mudWeight - props.fracturePressure) * 2)
        ((s.currentData.standpipePressure - props.fracturePressure * 150) * 0.01)
    let s : SimulationEngine := { s with
      currentData.pitLevel := s.currentData.pitLevel - lossRate * 0.1 }
    let s :=
      if s.warningTimers.lostCirculation = 0 then
        let lostCircEvent : DrillEvent :=
          { type := "lostCirculation", time := now,
            depth := s.currentData.bitDepth,
            layer := s.getLayerIndexAtDepth s.currentData.bitDepth,
            severity := "warning",
            description := "Lost circulation detected - formation fracture pressure exceeded" }
        let s := { s with
          warningTimers.lostCirculation := s.simulationTime,
          warningTimestamps.lostCirculation := now,
          eventLog := s.eventLog ++ [lostCircEvent],
          currentData.events := s.currentData.events ++ [lostCircEvent] }
        addTimelineEvent s
          { id := now, type := "lostCirculation", time := now,
            description := "Lost circulation", severity := "warning",
            parameters := .lostCirculation s.currentData.bitDepth
              props.fracturePressure s.currentData.mudWeight
              s.currentData.standpipePressure }
      else s
    if lossRate > 5 ∧ s.warningTimers.severeLostCirculation = 0 then
      let severeLostCircEvent : DrillEvent :=
        { type := "severeLostCirculation", time := now,
          depth := s.currentData.bitDepth,
          layer := s.getLayerIndexAtDepth s.currentData.bitDepth,
          severity := "critical",
          description := "Severe lost circulation - significant fluid loss to formation" }
      { s with
        warningTimers.severeLostCirculation := s.simulationTime,
        warningTimestamps.severeLostCirculation := now,
        eventLog := s.eventLog ++ [severeLostCircEvent],
        currentData.events := s.currentData.events ++ [severeLostCircEvent] }
    else s
  else { s with
    warningTimers.lostCirculation := 0,
    warningTimers.severeLostCirculation := 0 }

/-- Terminal checks 5 (per-unit equipment failure) and 6 (wellbore
collapse), reached when no earlier check returned. -/
def equipmentAndCollapseChecks (s : SimulationEngine) (props : FormationProps)
    (now : ℕ) : SimulationEngine :=
  if s.equipmentStatus.pumps.health ≤ 0 then
    triggerGameOver s "Pump Failure"
      "Pumps failed due to extended operation beyond rated capacity."
      "Without functional mud pumps, circulation is impossible, leading to inability to control wellbore pressure and remove cuttings."
      [ "Monitor pump pressure and maintain within specifications",
        "Perform regular maintenance checks",
        "Reduce pump rate when high pressures are observed",
        "Use multiple pumps to distribute load when high rates are needed" ] now
  else if s.equipmentStatus.drillString.health ≤ 0 then
    triggerGameOver s "Drill String Failure"
      "Drill string failed due to excessive torque and vibration."
      "A drill string failure can result in dropped pipe, fishing operations, or in severe cases, loss of well control if it occurs during a critical operation."
      [ "Monitor torque and vibration continuously",
        "Adjust drilling parameters (WOB, RPM) to minimize vibration",
        "Perform regular inspections of drill pipe",
        "Use shock subs and other vibration dampening tools" ] now
  else if s.equipmentStatus.bop.health ≤ 0 then
    triggerGameOver s "BOP Failure"
      "BOP failed due to improper operation."
      "A non-functional BOP means the last line of defense against a blowout is compromised, creating an extremely dangerous situation."
      [ "Never close annular preventer while pipe is rotating",
        "Perform regular BOP tests and maintenance",
        "Ensure proper training for BOP operation",
        "Follow manufacturer guidelines for BOP operation" ] now
  else
    let depthWithoutCasing := s.currentData.bitDepth - s.casingDepth
    let timeSinceLastCasing := s.simulationTime - s.lastCasingRun
    if depthWithoutCasing > 1500 ∧ timeSinceLastCasing > 1000 ∧
        (props.lithology = "shale" ∨ props.permeability < 0.01) then
      triggerGameOver s "Wellbore Collapse"
        "Wellbore collapsed due to drilling too deep without casing in unstable formation."
        "Wellbore collapse has trapped the drill string, making it impossible to circulate or trip out. The well must now be abandoned or sidetracked at significant cost."
        [ "Run casing at appropriate intervals based on formation stability",
          "Monitor for signs of wellbore instability (tight hole, high torque)",
          "Use appropriate mud properties to stabilize the wellbore",
          "Perform caliper logs to assess wellbore condition before running casing" ] now
    else s

/-- Terminal check 4: sustained unmitigated gas influx, with the
stringly-typed mitigation scan over the action log. -/
def checkGasInflux (s : SimulationEngine) (props : FormationProps) (now : ℕ) :
    SimulationEngine :=
  if s.currentData.bitDepth > 500 ∧ s.currentData.gasLevel > 5 then
    let s : SimulationEngine :=
      if s.warningTimers.gasInflux = 0 then
        { s with
          warningTimers.gasInflux := s.simulationTime,
          warningTimestamps.gasInflux := now }
      else s
    let timeElapsed := s.simulationTime - s.warningTimers.gasInflux
    if (timeElapsed : ℚ) > 60 * s.speed then
      let actionsAfterWarning := s.actionLog.filter fun a =>
        decide (a.time > s.warningTimestamps.gasInflux) &&
          (jsIncludes a.action "BOP" || jsIncludes a.action "mudWeight" ||
            jsIncludes a.action "chokePosition")
      if actionsAfterWarning.isEmpty then
        let s : SimulationEngine := { s with
          missedWarnings := s.missedWarnings ++
            [{ warning := "Gas Influx Detected",
               time := s.warningTimestamps.gasInflux,
               requiredAction := "Close BOP and adjust mud weight",
               timeAllowed := "60 seconds" }] }
        let h2sPresent := props.lithology = "shale" ∨ s.scenario = "blowout"
        if h2sPresent then
          triggerGameOver s "H2S Exposure"
            "Gas influx containing H2S reached dangerous levels without mitigation."
            "H2S is extremely toxic and can cause rapid unconsciousness and death at high concentrations. The entire rig is now in a life-threatening situation."
            [ "Monitor for H2S continuously in high-risk formations",
              "Respond immediately to gas influx indicators",
              "Ensure all personnel are trained in H2S safety procedures",
              "Maintain proper BOP and well control equipment" ] now
        else
          triggerGameOver s "Uncontrolled Gas Influx"
            "Gas influx was ignored and has escalated to an uncontrollable situation."
            "The increasing gas volume has displaced drilling fluid, reducing hydrostatic pressure and allowing more formation fluids to enter the wellbore in a dangerous cycle."
            [ "Monitor for kick indicators continuously",
              "Take immediate action when gas is detected",
              "Properly train personnel in well control procedures",
              "Maintain adequate mud weight for formation pressure" ] now
      else
        equipmentAndCollapseChecks { s with warningTimers.gasInflux := 0 }
          props now
    else equipmentAndCollapseChecks s props now
  else
    equipmentAndCollapseChecks { s with warningTimers.gasInflux := 0 } props now

/-- `checkGameOverConditions`: the priority-ordered terminal evaluator
(first match wins; a fired trigger returns, skipping the rest). -/
def checkGameOverConditions (s : SimulationEngine) (props : FormationProps)
    (now : ℕ) : SimulationEngine :=
  if s.currentData.pitLevel = 0 then
    triggerGameOver s "Mud Pit Depletion"
      "Mud depleted – circulation impossible – formation fluids uncontrolled."
      "Without drilling fluid, the wellbore cannot maintain hydrostatic pressure, leading to an uncontrolled influx of formation fluids and potential blowout."
      [ "Monitor pit levels continuously",
        "Reduce pump rate when pit levels are low",
        "Add lost circulation material when losses are detected",
        "Maintain adequate reserve pit volume at all times" ] now
  else if s.currentData.bitDepth > 500 ∧ s.currentData.gasLevel > 20 ∧
      s.controls.bopStatus = "open" then
    triggerGameOver s "Blowout Event"
      "Uncontrolled kick has escalated to a blowout."
      "Formation fluids have reached the surface in an uncontrolled manner, creating a dangerous situation with risk of fire, environmental damage, and personnel injury."
      [ "Monitor for kick indicators (pit gain, flow rate changes)",
        "Close BOP immediately when kick is detected",
        "Properly weight up mud to control formation pressure",
        "Maintain proper choke control during well control operations" ] now
  else if (s.currentData.standpipePressure > props.fracturePressure * 200 ∨
      s.currentData.mudWeight > props.fracturePressure * 1.2) ∧
      s.currentData.gasLevel > 5 ∧ s.currentData.pitLevel < 30 then
    triggerGameOver s "Formation Breakdown with Kick"
      "Excessive pressure fractured the formation, causing severe losses followed by an influx."
      "The combination of lost circulation and kick is one of the most dangerous scenarios in drilling, as the well can no longer be controlled with conventional methods."
      [ "Maintain mud weight below fracture gradient",
        "Control pump pressure and avoid pressure spikes",
        "Perform leak-off tests to determine safe operating pressures",
        "Reduce ECD (Equivalent Circulating Density) when approaching weak zones" ] now
  else checkGasInflux s props now

/-- The pump section of `updateEquipmentStatus`: overuse damage above
pump rate 800, slow overuse recovery otherwise. -/
def updatePumpHealth (s : SimulationEngine) : SimulationEngine :=
  if s.controls.pumpRate > 800 then
    let damageRate := (s.controls.pumpRate - 800) / 200
    { s with
      equipmentStatus.pumps.overuseDuration :=
        s.equipmentStatus.pumps.overuseDuration + 1,
      equipmentStatus.pumps.health :=
        s.equipmentStatus.pumps.health - damageRate * 0.1 }
  else if s.equipmentStatus.pumps.overuseDuration > 0 then
    { s with
      equipmentStatus.pumps.overuseDuration :=
        max 0 (s.equipmentStatus.pumps.overuseDuration - 0.5) }
  else s

/-- The vibration/torque readings `updateEquipmentStatus` writes before
the drill-string damage check. -/
def setDrillStringReadings (s : SimulationEngine) : SimulationEngine :=
  { s with
    equipmentStatus.drillString.vibration := s.calculateVibration,
    equipmentStatus.drillString.torque := s.currentData.torque }

/-- The drill-string section of `updateEquipmentStatus`: damage and
one-shot warnings above the vibration/torque thresholds. -/
def updateDrillStringHealth (s : SimulationEngine) (now : ℕ) :
    SimulationEngine :=
  if s.equipmentStatus.drillString.vibration > 80 ∨
      s.equipmentStatus.drillString.torque > 90 then
    let vibrationDamage :=
      max 0 ((s.equipmentStatus.drillString.vibration - 80) * 0.05)
    let torqueDamage :=
      max 0 ((s.equipmentStatus.drillString.torque - 90) * 0.1)
    let s : SimulationEngine := { s with
      equipmentStatus.drillString.health :=
        s.equipmentStatus.drillString.health -
          (vibrationDamage + torqueDamage) }
    let s : SimulationEngine :=
      if s.warningTimers.highVibration = 0 ∧
          s.equipmentStatus.drillString.vibration > 80 then
        let vibrationWarning : DrillEvent :=
          { type := "highVibration", time := now,
            depth := s.currentData.bitDepth,
            layer := s.getLayerIndexAtDepth s.currentData.bitDepth,
            severity := "warning",
            description := "High vibration detected - risk of drill string damage" }
        { s with
          warningTimers.highVibration := s.simulationTime,
          warningTimestamps.highVibration := now,
          eventLog := s.eventLog ++ [vibrationWarning],
          currentData.events := s.currentData.events ++ [vibrationWarning] }
      else s
    if s.warningTimers.highTorque = 0 ∧
        s.equipmentStatus.drillString.torque > 90 then
      let torqueWarning : DrillEvent :=
        { type := "highTorque", time := now,
          depth := s.currentData.bitDepth,
          layer := s.getLayerIndexAtDepth s.currentData.bitDepth,
          severity := "warning",
          description := "High torque detected - risk of drill string damage or twist-off" }
      { s with
        warningTimers.highTorque := s.simulationTime,
        warningTimestamps.highTorque := now,
        eventLog := s.eventLog ++ [torqueWarning],
        currentData.events := s.currentData.events ++ [torqueWarning] }
    else s
  else { s with
    warningTimers.highVibration := 0,
    warningTimers.highTorque := 0 }

/-- The BOP section of `updateEquipmentStatus`: damage (and a one-shot
warning) when the BOP is closed while the pipe rotates above 30 rpm. -/
def updateBopHealth (s : SimulationEngine) (now : ℕ) : SimulationEngine :=
  if s.controls.bopStatus = "closed" ∧ s.controls.rotarySpeed > 30 then
    let s : SimulationEngine := { s with
      equipmentStatus.bop.health :=
        s.equipmentStatus.bop.health - s.controls.rotarySpeed * 0.1 }
    if s.warningTimers.bopWithRotation = 0 then
      let bopWarning : DrillEvent :=
        { type := "bopWithRotation", time := now,
          depth := s.currentData.bitDepth,
          layer := s.getLayerIndexAtDepth s.currentData.bitDepth,
          severity := "warning",
          description := "BOP closed while pipe is rotating - risk of equipment damage" }
      { s with
        warningTimers.bopWithRotation := s.simulationTime,
        warningTimestamps.bopWithRotation := now,
        eventLog := s.eventLog ++ [bopWarning],
        currentData.events := s.currentData.events ++ [bopWarning] }
    else s
  else { s with warningTimers.bopWithRotation := 0 }

/-- `updateEquipmentStatus`: the source method's three sections (pumps,
drill string, BOP) in their statement order. -/
def updateEquipmentStatus (s : SimulationEngine) (now : ℕ) :
    SimulationEngine :=
  updateBopHealth
    (updateDrillStringHealth (setDrillStringReadings (updatePumpHealth s)) now)
    now

/-- `checkTrippingOperations`: swab (tripping out too fast) and surge
(tripping in too fast) effects. -/
def checkTrippingOperations (s : SimulationEngine) (now : ℕ) :
    SimulationEngine :=
  if ¬s.trippingStatus.isTripping then s
  else
    let timeDelta := s.simulationTime - s.trippingStatus.lastTime
    if timeDelta = 0 then s
    else
      let currentDepth := s.currentData.bitDepth
      let depthDelta := currentDepth - s.trippingStatus.lastDepth
      let actualSpeed := |depthDelta| / ((timeDelta : ℚ) / 60)
      let s : SimulationEngine := { s with
        trippingStatus.lastDepth := currentDepth,
        trippingStatus.lastTime := s.simulationTime }
      let s : SimulationEngine :=
        if s.trippingStatus.direction = "out" ∧ actualSpeed > 100 then
          let swabPressureReduction := (actualSpeed - 100) * 0.05
          let s : SimulationEngine := { s with
            currentData.formationPressure :=
              s.currentData.formationPressure + swabPressureReduction }
          if s.currentData.mudWeight * 0.052 * s.currentData.bitDepth <
              s.currentData.formationPressure then
            let s : SimulationEngine := { s with
              currentData.gasLevel :=
                s.currentData.gasLevel + swabPressureReduction * 0.5,
              currentData.pitLevel :=
                s.currentData.pitLevel + swabPressureReduction * 0.2 }
            if s.warningTimers.swabKick = 0 then
              let swabWarning : DrillEvent :=
                { type := "swabKick", time := now,
                  depth := s.currentData.bitDepth,
                  layer := s.getLayerIndexAtDepth s.currentData.bitDepth,
                  severity := "warning",
                  description := "Swab-induced kick detected - tripping out too fast" }
              { s with
                warningTimers.swabKick := s.simulationTime,
                warningTimestamps.swabKick := now,
                eventLog := s.eventLog ++ [swabWarning],
                currentData.events := s.currentData.events ++ [swabWarning] }
            else s
          else s
        else s
      if s.trippingStatus.direction = "in" ∧ actualSpeed > 100 then
        let surgePressureIncrease := (actualSpeed - 100) * 0.1
        let s : SimulationEngine := { s with
          currentData.annularPressure :=
            s.currentData.annularPressure + surgePressureIncrease }
        let props := s.getFormationPropertiesAtDepth s.currentData.bitDepth
        if s.currentData.annularPressure > props.fracturePressure * 100 then
          let s : SimulationEngine := { s with
            currentData.pitLevel :=
              s.currentData.pitLevel - surgePressureIncrease * 0.5 }
          if s.warningTimers.surgeLoss = 0 then
            let surgeWarning : DrillEvent :=
              { type := "surgeLoss", time := now,
                depth := s.currentData.bitDepth,
                layer := s.getLayerIndexAtDepth s.currentData.bitDepth,
                severity := "warning",
                description := "Surge-induced losses detected - tripping in too fast" }
            { s with
              warningTimers.surgeLoss := s.simulationTime,
              warningTimestamps.surgeLoss := now,
              eventLog := s.eventLog ++ [surgeWarning],
              currentData.events := s.currentData.events ++ [surgeWarning] }
          else s
        else s
      else s

/-- `addToLogs`: push a time-series sample, retaining the last 1000. -/
def addToLogs (s : SimulationEngine) (now : ℕ) : SimulationEngine :=
  let entry : LogEntry :=
    { time := now, depth := s.currentData.bitDepth, rop := s.currentData.rop,
      pumpPressure := s.currentData.pumpPressure,
      standpipePressure := s.currentData.standpipePressure,
      pitLevel := s.currentData.pitLevel, gasLevel := s.currentData.gasLevel,
      mudWeight := s.currentData.mudWeight,
      formationPressure := s.currentData.formationPressure,
      annularPressure := s.currentData.annularPressure,
      torque := s.currentData.torque, rpm := s.currentData.rpm,
      hookload := s.currentData.hookload }
  let ld := s.logData ++ [entry]
  { s with logData := if ld.length > 1000 then ld.drop (ld.length - 1000) else ld }

/-- `checkKickHandling`: count a handled kick when gas was high and is now
falling with the BOP closed; always refresh `previousGasLevel`. -/
def checkKickHandling (s : SimulationEngine) (now : ℕ) : SimulationEngine :=
  let s : SimulationEngine :=
    if s.previousGasLevel > 3 ∧ s.currentData.gasLevel < s.previousGasLevel ∧
        s.controls.bopStatus = "closed" then
      addTimelineEvent { s with kicksHandled := s.kicksHandled + 1 }
        { id := now, type := "kickHandled", time := now,
          description := "Kick successfully controlled", severity := "success",
          parameters := .kickHandled s.currentData.bitDepth
            s.currentData.gasLevel s.currentData.mudWeight }
    else s
  { s with previousGasLevel := s.currentData.gasLevel }

/-- The part of `updateSimulation` before `checkForEvents`: clock advance,
formation lookup and transition check, depth/mechanics/hydraulics updates
and the pit-level clamp. Returns the mid-tick state together with the
formation properties (sampled at the pre-update depth) and the depth
increment. -/
def tickPhase1 (s : SimulationEngine) (now : ℕ) :
    SimulationEngine × FormationProps × ℚ :=
  let s : SimulationEngine := { s with
    simulationTime := s.simulationTime + 1,
    elapsedTime := s.elapsedTime + 1 / s.speed }
  let formationProps := s.getFormationPropertiesAtDepth s.currentData.bitDepth
  let s := s.checkFormationTransition s.currentData.bitDepth now
  let depthIncrement : ℚ :=
    if s.controls.drawworks = "unlocked" then 0
    else s.controls.rop / (3600 / s.speed)
  let s : SimulationEngine :=
    if s.controls.drawworks = "unlocked" then
      let depthChange :=
        (s.controls.hookPosition - s.currentData.bitDepth / 100) * 10
      { s with currentData.bitDepth := max 0 (s.currentData.bitDepth + depthChange) }
    else
      { s with currentData.bitDepth := s.currentData.bitDepth + depthIncrement }
  let s : SimulationEngine := { s with
    currentData.rop := s.controls.rop,
    currentData.rpm := s.controls.rotarySpeed }
  let s : SimulationEngine := { s with
    currentData.torque := calculateTorque s.controls.rotarySpeed formationProps }
  let s : SimulationEngine := { s with
    currentData.hookload := calculateHookload s.currentData.bitDepth s.wellType }
  let s : SimulationEngine := { s with
    currentData.mudWeight := s.controls.mudWeight }
  let s : SimulationEngine := { s with
    currentData.pumpPressure :=
      calculatePumpPressure s.controls.pumpRate s.currentData.bitDepth }
  let s : SimulationEngine := { s with
    currentData.standpipePressure :=
      calculateStandpipePressure s.currentData.pumpPressure
        s.controls.chokePosition }
  let s : SimulationEngine := { s with
    currentData.annularPressure :=
      calculateAnnularPressure s.currentData.standpipePressure
        s.currentData.bitDepth }
  let s : SimulationEngine := { s with
    currentData.pitLevel := max 0 s.currentData.pitLevel }
  let s : SimulationEngine := { s with
    currentData.formationPressure := formationProps.porePressure }
  let s : SimulationEngine := { s with
    currentData.bopStatus := s.controls.bopStatus,
    currentData.chokePosition := s.controls.chokePosition }
  (s, formationProps, depthIncrement)

/-- The part of `updateSimulation` from `checkForEvents` on: event
detection, terminal evaluation, equipment update, tripping effects,
automatic checkpoints, periodic logging and kick-handling bookkeeping. -/
def tickPhase2 (s : SimulationEngine) (formationProps : FormationProps)
    (depthIncrement : ℚ) (now : ℕ) (rand : ℚ) : SimulationEngine :=
  let s := s.checkForEvents formationProps rand now
  let s := s.checkGameOverConditions formationProps now
  let s := s.updateEquipmentStatus now
  let s := s.checkTrippingOperations now
  let s :=
    if Rat.floor (s.currentData.bitDepth / 500) >
        Rat.floor ((s.currentData.bitDepth - depthIncrement) / 500) then
      (s.createCheckpoint now true).2
    else s
  let s := if s.simulationTime % 5 = 0 then s.addToLogs now else s
  s.checkKickHandling now

/-- `updateSimulation`: one simulation tick; a no-op when the game is
over. `now` abstracts `Date.now()` and `rand` the tick's `Math.random()`
draw. -/
def updateSimulation (s : SimulationEngine) (now : ℕ) (rand : ℚ) :
    SimulationEngine :=
  if s.gameOver then s
  else
    let p := tickPhase1 s now
    tickPhase2 p.1 p.2.1 p.2.2 now rand

/-- The pure cascade of `getRiskLevel`: the running maximum of the five
sub-scores, each able to take over the risk type on a strict increase. -/
def computeRiskLevel (s : SimulationEngine) : ℚ × Option String :=
  let riskLevel : ℚ := 0
  let riskType : Option String := none
  let hydrostaticPressure :=
    s.currentData.mudWeight * 0.052 * s.currentData.bitDepth
  let props := s.getFormationPropertiesAtDepth s.currentData.bitDepth
  let (riskLevel, riskType) :=
    if s.currentData.bitDepth > 500 ∧
        props.porePressure > hydrostaticPressure * 0.95 then
      let kickRisk := min 100
        ((props.porePressure - hydrostaticPressure * 0.95) /
          (hydrostaticPressure * 0.05) * 100)
      -- The properties record carries no `kickRisk` key, so the source's
      -- `formationProps.kickRisk || 0.2` always evaluates to 0.2 here.
      let formationKickFactor : ℚ := 0.2
      let adjustedKickRisk := kickRisk * (0.7 + formationKickFactor * 0.3)
      if adjustedKickRisk > riskLevel then (adjustedKickRisk, some "kick")
      else (riskLevel, riskType)
    else (riskLevel, riskType)
  let (riskLevel, riskType) :=
    if s.currentData.mudWeight > props.fracturePressure * 0.9 ∨
        s.currentData.standpipePressure > props.fracturePressure * 130 then
      let lossRisk := min 100 (max
        ((s.currentData.mudWeight - props.fracturePressure * 0.9) /
          (props.fracturePressure * 0.1) * 100)
        ((s.currentData.standpipePressure - props.fracturePressure * 130) /
          (props.fracturePressure * 20) * 100))
      if lossRisk > riskLevel then (lossRisk, some "lostCirculation")
      else (riskLevel, riskType)
    else (riskLevel, riskType)
  let (riskLevel, riskType) :=
    if s.currentData.pitLevel < 30 then
      let pitRisk := min 100 ((30 - s.currentData.pitLevel) / 30 * 100)
      if pitRisk > riskLevel then (pitRisk, some "pitDepletion")
      else (riskLevel, riskType)
    else (riskLevel, riskType)
  let equipmentRisk := min 100 (max
    ((100 - s.equipmentStatus.pumps.health) * 1.2) (max
    ((100 - s.equipmentStatus.drillString.health) * 1.2)
    ((100 - s.equipmentStatus.bop.health) * 1.2)))
  let (riskLevel, riskType) :=
    if equipmentRisk > riskLevel then (equipmentRisk, some "equipmentFailure")
    else (riskLevel, riskType)
  let depthWithoutCasing := s.currentData.bitDepth - s.casingDepth
  if depthWithoutCasing > 1000 ∧
      (props.lithology = "shale" ∨ props.permeability < 0.01) then
    let instabilityRisk := min 100 ((depthWithoutCasing - 1000) / 10)
    if instabilityRisk > riskLevel then (instabilityRisk, some "wellboreInstability")
    else (riskLevel, riskType)
  else (riskLevel, riskType)

/-- The game-over reason and description `getRiskLevel` derives from the
dominant sub-score's type when the composite risk reaches 100. -/
def riskGameOverReason (riskType : Option String) : String × String :=
  if riskType = some "kick" then
    ("Uncontrolled Kick",
      "Formation fluids entered the wellbore and were not properly controlled.")
  else if riskType = some "lostCirculation" then
    ("Catastrophic Lost Circulation",
      "Complete loss of drilling fluid to the formation.")
  else if riskType = some "pitDepletion" then
    ("Mud System Failure",
      "Critical depletion of drilling fluid reserves.")
  else if riskType = some "equipmentFailure" then
    ("Critical Equipment Failure",
      "Key drilling equipment has failed beyond operational limits.")
  else if riskType = some "wellboreInstability" then
    ("Wellbore Collapse",
      "The wellbore has collapsed due to instability and lack of support.")
  else
    ("Critical System Failure",
      "Multiple critical failures led to an unrecoverable situation.")

/-- `getRiskLevel()`: computes the composite risk, records significant
changes on the timeline, updates the decay tracking fields, triggers a
terminal transition at level ≥ 100, and returns the triple. -/
def getRiskLevel (s : SimulationEngine) (now : ℕ) :
    (ℚ × Option String × Bool) × SimulationEngine :=
  let r := computeRiskLevel s
  let riskLevel := r.1
  let riskType := r.2
  let decaying := riskLevel < s.lastRiskLevel
  let s : SimulationEngine :=
    if riskLevel < s.lastRiskLevel then
      if s.lastRiskLevel - riskLevel > 20 then
        addTimelineEvent s
          { id := now, type := "riskDecreased", time := now,
            description := "Risk level decreased", severity := "success",
            parameters := .riskChange (round s.lastRiskLevel)
              (round riskLevel) riskType }
      else s
    else if riskLevel > s.lastRiskLevel + 10 then
      addTimelineEvent s
        { id := now, type := "riskIncreased", time := now,
          description := "Risk level increased",
          severity := if riskLevel > 70 then "critical" else "warning",
          parameters := .riskChange (round s.lastRiskLevel)
            (round riskLevel) riskType }
    else s
  let s : SimulationEngine :=
    { s with lastRiskLevel := riskLevel, riskDecaying := decaying }
  let s : SimulationEngine :=
    if riskLevel ≥ 100 ∧ ¬s.gameOver then
      let rd := riskGameOverReason riskType
      triggerGameOver s rd.1 rd.2
        "The operation has failed due to unmanaged risks."
        [ "Monitor warning signs closely",
          "Take immediate action when risks are detected",
          "Follow proper procedures for well control",
          "Maintain equipment within operational parameters" ] now
    else s
  ((riskLevel, riskType, decaying), s)

end SimulationEngine

/-! ## Theorems about the engine -/

open SimulationEngine

/-- C2: once `isGameOver()` is true, a simulation tick leaves the entire
engine state unchanged (for any wall-clock and random inputs), until
`loadCheckpoint` or `reset` intervenes. -/
theorem tick_is_noop_after_game_over (s : SimulationEngine) (now : ℕ)
    (rand : ℚ) (h : s.isGameOver = true) : s.updateSimulation now rand = s := by
  unfold SimulationEngine.updateSimulation
  rw [if_pos (show s.gameOver = true from h)]

/-- Witness for C2 at a concrete terminal state. -/
theorem tick_is_noop_after_game_over_witness :
    ({ engineInit with gameOver := true } : SimulationEngine).isGameOver = true ∧
    ({ engineInit with gameOver := true } : SimulationEngine).updateSimulation 7 0 =
      { engineInit with gameOver := true } :=
  ⟨rfl, tick_is_noop_after_game_over _ 7 0 rfl⟩

/-- C4: `loadCheckpoint` with an unknown id returns `false` and is a
complete no-op; with a stored id it returns `true`, clears the terminal
state, and `getCurrentData()` afterwards is exactly the stored
`SimulationState`. -/
theorem loadCheckpoint_spec (s : SimulationEngine) (id : String) (now : ℕ) :
    ((∀ cp ∈ s.checkpoints, cp.id ≠ id) →
      s.loadCheckpoint id now = (false, s)) ∧
    (∀ cp, s.checkpoints.find? (fun c => c.id == id) = some cp →
      (s.loadCheckpoint id now).1 = true ∧
      (s.loadCheckpoint id now).2.isGameOver = false ∧
      (s.loadCheckpoint id now).2.getCurrentData = cp.state.currentData) := by
  constructor
  · intro h
    have hf : s.checkpoints.find? (fun c => c.id == id) = none := by
      rw [List.find?_eq_none]
      intro x hx
      simpa using h x hx
    unfold SimulationEngine.loadCheckpoint
    rw [hf]
  · intro cp hcp
    unfold SimulationEngine.loadCheckpoint
    rw [hcp]
    exact ⟨rfl, rfl, rfl⟩

/-- Witness for C4: a fresh engine with one manual checkpoint; an unknown
id is rejected without touching the state and the stored id restores. -/
theorem loadCheckpoint_spec_witness :
    ((engineInit.createCheckpoint 5 false).2.loadCheckpoint "zzz" 9 =
      (false, (engineInit.createCheckpoint 5 false).2)) ∧
    ((engineInit.createCheckpoint 5 false).2.loadCheckpoint "cp_5" 9).1 = true :=
  ⟨(loadCheckpoint_spec _ "zzz" 9).1 (by with_unfolding_all decide),
    (((loadCheckpoint_spec _ "cp_5" 9).2 (engineInit.createCheckpoint 5 false).1
      (by with_unfolding_all decide)).1)⟩

/-- C5 counterexample: `reset()` does not empty the checkpoint list — a
checkpoint created before the reset survives it. -/
theorem reset_keeps_checkpoints_counterexample :
    ((engineInit.createCheckpoint 0 false).2.reset).checkpoints.length = 1 := by
  with_unfolding_all decide

/-- C5 amended: `reset()` stops the clock, clears the terminal state, and
restores the simulation data, controls, equipment, timers, clock counters
and logs (log data, event log, timeline, formation transitions) to their
initial constants, while the checkpoint list, speed, training mode, well
type, formation, scenario, BOP-activation and kicks-handled counters,
target depth, and previous gas level persist. -/
theorem reset_spec (s : SimulationEngine) :
    s.reset = { engineInit with
      speed := s.speed, trainingMode := s.trainingMode,
      wellType := s.wellType, formation := s.formation,
      scenario := s.scenario, checkpoints := s.checkpoints,
      bopActivations := s.bopActivations, kicksHandled := s.kicksHandled,
      targetDepth := s.targetDepth, previousGasLevel := s.previousGasLevel } :=
  rfl

lemma createCheckpoint_checkpoints (s : SimulationEngine) (now : ℕ)
    (auto : Bool) :
    ((s.createCheckpoint now auto).2).checkpoints =
      (if (s.checkpoints ++ [(s.createCheckpoint now auto).1]).length > 10 then
        (s.checkpoints ++ [(s.createCheckpoint now auto).1]).drop
          ((s.checkpoints ++ [(s.createCheckpoint now auto).1]).length - 10)
      else s.checkpoints ++ [(s.createCheckpoint now auto).1]) := by
  unfold SimulationEngine.createCheckpoint
  split <;> rfl

lemma createCheckpoint_length_le (s : SimulationEngine) (now : ℕ)
    (auto : Bool) (h : s.checkpoints.length ≤ 10) :
    ((s.createCheckpoint now auto).2).checkpoints.length ≤ 10 := by
  rw [createCheckpoint_checkpoints]
  split
  · rename_i hgt
    rw [List.length_drop]
    omega
  · rename_i hle
    simp only [List.length_append, List.length_cons, List.length_nil] at *
    omega

/-- C6: starting from a fresh engine, no sequence of `createCheckpoint`
calls ever leaves more than 10 stored checkpoints, and a call made with 10
stored checkpoints evicts exactly the oldest one (FIFO). -/
theorem checkpoints_bounded_fifo :
    (∀ ops : List (ℕ × Bool),
      ((ops.foldl (fun e p => (e.createCheckpoint p.1 p.2).2)
        engineInit).checkpoints).length ≤ 10) ∧
    (∀ (s : SimulationEngine) (now : ℕ) (auto : Bool),
      s.checkpoints.length = 10 →
      ((s.createCheckpoint now auto).2).checkpoints =
        s.checkpoints.tail ++ [(s.createCheckpoint now auto).1]) := by
  constructor
  · intro ops
    suffices h : ∀ (s : SimulationEngine), s.checkpoints.length ≤ 10 →
        ((ops.foldl (fun e p => (e.createCheckpoint p.1 p.2).2)
          s).checkpoints).length ≤ 10 by
      exact h engineInit (by simp [engineInit])
    induction ops with
    | nil => intro s hs; exact hs
    | cons p ps ih =>
      intro s hs
      exact ih _ (createCheckpoint_length_le s p.1 p.2 hs)
  · intro s now auto h
    rw [createCheckpoint_checkpoints, if_pos (by simp [h])]
    cases hcp : s.checkpoints with
    | nil => rw [hcp] at h; simp at h
    | cons a l =>
      rw [hcp] at h
      have h9 : l.length = 9 := by simpa using h
      simp [h9]

/-- A fresh engine after ten manual `createCheckpoint` calls. -/
def tenCheckpointEngine : SimulationEngine :=
  ([(0, false), (1, false), (2, false), (3, false), (4, false), (5, false),
    (6, false), (7, false), (8, false), (9, false)] :
    List (ℕ × Bool)).foldl (fun e p => (e.createCheckpoint p.1 p.2).2)
    engineInit

/-- Witness for C6: with exactly 10 stored checkpoints, the 11th creation
evicts the oldest. -/
theorem checkpoints_bounded_fifo_witness :
    ((tenCheckpointEngine.createCheckpoint 10 false).2).checkpoints =
      tenCheckpointEngine.checkpoints.tail ++
        [(tenCheckpointEngine.createCheckpoint 10 false).1] :=
  checkpoints_bounded_fifo.2 _ 10 false (by with_unfolding_all decide)


/-! Frame lemmas: which tick components leave the equipment status
untouched, and how each `updateEquipmentStatus` section moves health. -/

lemma addTimelineEvent_equipmentStatus (s : SimulationEngine)
    (e : TimelineEvent) : (s.addTimelineEvent e).equipmentStatus =
      s.equipmentStatus := rfl

set_option maxHeartbeats 1000000 in
lemma triggerGameOver_equipmentStatus (s : SimulationEngine)
    (reason description consequence : String) (tips : List String) (now : ℕ) :
    (s.triggerGameOver reason description consequence tips now).equipmentStatus =
      s.equipmentStatus := by
  unfold SimulationEngine.triggerGameOver
  split <;> rfl

set_option maxHeartbeats 1000000 in
lemma checkFormationTransition_equipmentStatus (s : SimulationEngine)
    (depth : ℚ) (now : ℕ) :
    (s.checkFormationTransition depth now).equipmentStatus =
      s.equipmentStatus := by
  unfold SimulationEngine.checkFormationTransition
  (repeat' split) <;>
    simp [apply_ite SimulationEngine.equipmentStatus,
      addTimelineEvent_equipmentStatus]

set_option maxHeartbeats 1000000 in
lemma checkForEvents_equipmentStatus (s : SimulationEngine)
    (props : FormationProps) (rand : ℚ) (now : ℕ) :
    (s.checkForEvents props rand now).equipmentStatus = s.equipmentStatus := by
  unfold SimulationEngine.checkForEvents
  simp [apply_ite SimulationEngine.equipmentStatus,
    addTimelineEvent_equipmentStatus]

set_option maxHeartbeats 1000000 in
lemma equipmentAndCollapseChecks_equipmentStatus (s : SimulationEngine)
    (props : FormationProps) (now : ℕ) :
    (s.equipmentAndCollapseChecks props now).equipmentStatus =
      s.equipmentStatus := by
  unfold SimulationEngine.equipmentAndCollapseChecks
  simp [apply_ite SimulationEngine.equipmentStatus,
    triggerGameOver_equipmentStatus]

set_option maxHeartbeats 1000000 in
lemma checkGasInflux_equipmentStatus (s : SimulationEngine)
    (props : FormationProps) (now : ℕ) :
    (s.checkGasInflux props now).equipmentStatus = s.equipmentStatus := by
  unfold SimulationEngine.checkGasInflux
  simp [apply_ite SimulationEngine.equipmentStatus,
    triggerGameOver_equipmentStatus,
    equipmentAndCollapseChecks_equipmentStatus]

set_option maxHeartbeats 1000000 in
lemma checkGameOverConditions_equipmentStatus (s : SimulationEngine)
    (props : FormationProps) (now : ℕ) :
    (s.checkGameOverConditions props now).equipmentStatus =
      s.equipmentStatus := by
  unfold SimulationEngine.checkGameOverConditions
  simp [apply_ite SimulationEngine.equipmentStatus,
    triggerGameOver_equipmentStatus, checkGasInflux_equipmentStatus]

set_option maxHeartbeats 1000000 in
lemma checkTrippingOperations_equipmentStatus (s : SimulationEngine)
    (now : ℕ) :
    (s.checkTrippingOperations now).equipmentStatus = s.equipmentStatus := by
  unfold SimulationEngine.checkTrippingOperations
  simp [apply_ite SimulationEngine.equipmentStatus]

set_option maxHeartbeats 1000000 in
lemma createCheckpoint_equipmentStatus (s : SimulationEngine) (now : ℕ)
    (auto : Bool) :
    ((s.createCheckpoint now auto).2).equipmentStatus = s.equipmentStatus := by
  unfold SimulationEngine.createCheckpoint
  simp [apply_ite SimulationEngine.equipmentStatus,
    addTimelineEvent_equipmentStatus]

lemma addToLogs_equipmentStatus (s : SimulationEngine) (now : ℕ) :
    (s.addToLogs now).equipmentStatus = s.equipmentStatus := rfl

set_option maxHeartbeats 1000000 in
lemma checkKickHandling_equipmentStatus (s : SimulationEngine) (now : ℕ) :
    (s.checkKickHandling now).equipmentStatus = s.equipmentStatus := by
  unfold SimulationEngine.checkKickHandling
  simp [apply_ite SimulationEngine.equipmentStatus,
    addTimelineEvent_equipmentStatus]

set_option maxHeartbeats 2000000 in
lemma tickPhase1_equipmentStatus (s : SimulationEngine) (now : ℕ) :
    (s.tickPhase1 now).1.equipmentStatus = s.equipmentStatus := by
  unfold SimulationEngine.tickPhase1
  simp [apply_ite SimulationEngine.equipmentStatus,
    checkFormationTransition_equipmentStatus]

lemma updatePumpHealth_health (s : SimulationEngine) :
    ((s.updatePumpHealth).equipmentStatus.pumps.health ≤
      s.equipmentStatus.pumps.health) ∧
    ((s.updatePumpHealth).equipmentStatus.drillString.health =
      s.equipmentStatus.drillString.health) ∧
    ((s.updatePumpHealth).equipmentStatus.bop.health =
      s.equipmentStatus.bop.health) := by
  unfold SimulationEngine.updatePumpHealth
  split_ifs with h1 h2 <;>
    refine ⟨?_, rfl, rfl⟩
  · simp only []
    have : (0 : ℚ) ≤ (s.controls.pumpRate - 800) / 200 * 0.1 := by
      have : (0 : ℚ) ≤ s.controls.pumpRate - 800 := by linarith
      positivity
    simp
    linarith
  · exact le_rfl
  · exact le_rfl

lemma setDrillStringReadings_health (s : SimulationEngine) :
    ((s.setDrillStringReadings).equipmentStatus.pumps.health =
      s.equipmentStatus.pumps.health) ∧
    ((s.setDrillStringReadings).equipmentStatus.drillString.health =
      s.equipmentStatus.drillString.health) ∧
    ((s.setDrillStringReadings).equipmentStatus.bop.health =
      s.equipmentStatus.bop.health) :=
  ⟨rfl, rfl, rfl⟩

lemma updateDrillStringHealth_health (s : SimulationEngine) (now : ℕ) :
    ((s.updateDrillStringHealth now).equipmentStatus.pumps.health =
      s.equipmentStatus.pumps.health) ∧
    ((s.updateDrillStringHealth now).equipmentStatus.drillString.health ≤
      s.equipmentStatus.drillString.health) ∧
    ((s.updateDrillStringHealth now).equipmentStatus.bop.health =
      s.equipmentStatus.bop.health) := by
  unfold SimulationEngine.updateDrillStringHealth
  dsimp only
  split_ifs <;>
    refine ⟨rfl, ?_, rfl⟩ <;>
    first
      | exact le_rfl
      | (have h1 := le_max_left (0 : ℚ)
           ((s.equipmentStatus.drillString.vibration - 80) * 0.05)
         have h2 := le_max_left (0 : ℚ)
           ((s.equipmentStatus.drillString.torque - 90) * 0.1)
         dsimp only
         linarith)

lemma updateBopHealth_health (s : SimulationEngine) (now : ℕ) :
    ((s.updateBopHealth now).equipmentStatus.pumps.health =
      s.equipmentStatus.pumps.health) ∧
    ((s.updateBopHealth now).equipmentStatus.drillString.health =
      s.equipmentStatus.drillString.health) ∧
    ((s.updateBopHealth now).equipmentStatus.bop.health ≤
      s.equipmentStatus.bop.health) := by
  unfold SimulationEngine.updateBopHealth
  dsimp only
  split_ifs with h1 h2 <;>
    refine ⟨rfl, rfl, ?_⟩ <;>
    first
      | exact le_rfl
      | (dsimp only; linarith [h1.2])

lemma updateEquipmentStatus_health_le (s : SimulationEngine) (now : ℕ) :
    ((s.updateEquipmentStatus now).equipmentStatus.pumps.health ≤
      s.equipmentStatus.pumps.health) ∧
    ((s.updateEquipmentStatus now).equipmentStatus.drillString.health ≤
      s.equipmentStatus.drillString.health) ∧
    ((s.updateEquipmentStatus now).equipmentStatus.bop.health ≤
      s.equipmentStatus.bop.health) := by
  unfold SimulationEngine.updateEquipmentStatus
  obtain ⟨p1, d1, b1⟩ := updatePumpHealth_health s
  obtain ⟨p2, d2, b2⟩ := setDrillStringReadings_health s.updatePumpHealth
  obtain ⟨p3, d3, b3⟩ :=
    updateDrillStringHealth_health (s.updatePumpHealth.setDrillStringReadings) now
  obtain ⟨p4, d4, b4⟩ :=
    updateBopHealth_health
      ((s.updatePumpHealth.setDrillStringReadings).updateDrillStringHealth now) now
  refine ⟨?_, ?_, ?_⟩
  · rw [p4, p3, p2]; exact p1
  · rw [d4]; exact le_trans d3 (by rw [d2]; exact le_of_eq d1)
  · exact le_trans b4 (by rw [b3, b2, b1])

set_option maxHeartbeats 2000000 in
lemma tickPhase2_equipmentStatus (m : SimulationEngine)
    (props : FormationProps) (inc : ℚ) (now : ℕ) (rand : ℚ) :
    (tickPhase2 m props inc now rand).equipmentStatus =
      (updateEquipmentStatus
        (checkGameOverConditions (checkForEvents m props rand now) props now)
        now).equipmentStatus := by
  unfold SimulationEngine.tickPhase2
  simp [checkKickHandling_equipmentStatus, addToLogs_equipmentStatus,
    createCheckpoint_equipmentStatus, checkTrippingOperations_equipmentStatus,
    apply_ite SimulationEngine.equipmentStatus]

lemma tickPhase2_health_le (m : SimulationEngine) (props : FormationProps)
    (inc : ℚ) (now : ℕ) (rand : ℚ) :
    ((tickPhase2 m props inc now rand).equipmentStatus.pumps.health ≤
      m.equipmentStatus.pumps.health) ∧
    ((tickPhase2 m props inc now rand).equipmentStatus.drillString.health ≤
      m.equipmentStatus.drillString.health) ∧
    ((tickPhase2 m props inc now rand).equipmentStatus.bop.health ≤
      m.equipmentStatus.bop.health) := by
  have key := tickPhase2_equipmentStatus m props inc now rand
  have h := updateEquipmentStatus_health_le
    (checkGameOverConditions (checkForEvents m props rand now) props now) now
  rw [checkGameOverConditions_equipmentStatus,
    checkForEvents_equipmentStatus] at h
  refine ⟨?_, ?_, ?_⟩ <;> rw [key]
  exacts [h.1, h.2.1, h.2.2]

/-- C7 amended: each unit's health never increases across a tick, so it
never exceeds its initial 100; it is however not clamped below 0 (see the
counterexample). -/
theorem equipment_health_nonincreasing (s : SimulationEngine) (now : ℕ)
    (rand : ℚ) :
    ((s.updateSimulation now rand).equipmentStatus.pumps.health ≤
      s.equipmentStatus.pumps.health) ∧
    ((s.updateSimulation now rand).equipmentStatus.drillString.health ≤
      s.equipmentStatus.drillString.health) ∧
    ((s.updateSimulation now rand).equipmentStatus.bop.health ≤
      s.equipmentStatus.bop.health) := by
  unfold SimulationEngine.updateSimulation
  split
  · exact ⟨le_rfl, le_rfl, le_rfl⟩
  · dsimp only
    have h := tickPhase2_health_le (s.tickPhase1 now).1 (s.tickPhase1 now).2.1
      (s.tickPhase1 now).2.2 now rand
    rw [tickPhase1_equipmentStatus] at h
    exact h

set_option maxRecDepth 1000000 in
/-- C7 counterexample: one tick with rotary speed 10000 and the BOP closed
drives the BOP health to −900, far below the claimed lower bound 0. -/
theorem equipment_health_negative_counterexample :
    ((engineInit.setControls { rotarySpeed := some 10000 } 0).updateSimulation
      1 0).equipmentStatus.bop.health < 0 := by
  with_unfolding_all decide

set_option maxRecDepth 1000000 in
/-- C1: the pit-level clamp runs at the start of the tick, before the
lost-circulation losses, so one tick with mud weight 1000 leaves the
observable pit level at −147.2. -/
theorem pit_level_negative_after_loss_tick :
    ((engineInit.setControls { mudWeight := some 1000 } 0).updateSimulation
      1 0).currentData.pitLevel < 0 := by
  with_unfolding_all decide

/-! Frames for the risk aggregator (C8). -/

lemma addTimelineEvent_controls (s : SimulationEngine) (e : TimelineEvent) :
    (s.addTimelineEvent e).controls = s.controls := rfl

lemma addTimelineEvent_logData (s : SimulationEngine) (e : TimelineEvent) :
    (s.addTimelineEvent e).logData = s.logData := rfl

lemma addTimelineEvent_checkpoints (s : SimulationEngine) (e : TimelineEvent) :
    (s.addTimelineEvent e).checkpoints = s.checkpoints := rfl

lemma addTimelineEvent_actionLog (s : SimulationEngine) (e : TimelineEvent) :
    (s.addTimelineEvent e).actionLog = s.actionLog := rfl

lemma addTimelineEvent_simulationTime (s : SimulationEngine)
    (e : TimelineEvent) :
    (s.addTimelineEvent e).simulationTime = s.simulationTime := rfl

lemma addTimelineEvent_gameOver (s : SimulationEngine) (e : TimelineEvent) :
    (s.addTimelineEvent e).gameOver = s.gameOver := rfl

set_option maxHeartbeats 1000000 in
lemma triggerGameOver_controls (s : SimulationEngine)
    (reason description consequence : String) (tips : List String) (now : ℕ) :
    (s.triggerGameOver reason description consequence tips now).controls =
      s.controls := by
  unfold SimulationEngine.triggerGameOver
  split <;> rfl

set_option maxHeartbeats 1000000 in
lemma triggerGameOver_logData (s : SimulationEngine)
    (reason description consequence : String) (tips : List String) (now : ℕ) :
    (s.triggerGameOver reason description consequence tips now).logData =
      s.logData := by
  unfold SimulationEngine.triggerGameOver
  split <;> rfl

set_option maxHeartbeats 1000000 in
lemma triggerGameOver_checkpoints (s : SimulationEngine)
    (reason description consequence : String) (tips : List String) (now : ℕ) :
    (s.triggerGameOver reason description consequence tips now).checkpoints =
      s.checkpoints := by
  unfold SimulationEngine.triggerGameOver
  split <;> rfl

set_option maxHeartbeats 1000000 in
lemma triggerGameOver_actionLog (s : SimulationEngine)
    (reason description consequence : String) (tips : List String) (now : ℕ) :
    (s.triggerGameOver reason description consequence tips now).actionLog =
      s.actionLog := by
  unfold SimulationEngine.triggerGameOver
  split <;> rfl

set_option maxHeartbeats 1000000 in
lemma triggerGameOver_simulationTime (s : SimulationEngine)
    (reason description consequence : String) (tips : List String) (now : ℕ) :
    (s.triggerGameOver reason description consequence tips now).simulationTime =
      s.simulationTime := by
  unfold SimulationEngine.triggerGameOver
  split <;> rfl

set_option maxHeartbeats 1000000 in
lemma triggerGameOver_lastRiskLevel (s : SimulationEngine)
    (reason description consequence : String) (tips : List String) (now : ℕ) :
    (s.triggerGameOver reason description consequence tips now).lastRiskLevel =
      s.lastRiskLevel := by
  unfold SimulationEngine.triggerGameOver
  split <;> rfl

set_option maxHeartbeats 1000000 in
lemma triggerGameOver_riskDecaying (s : SimulationEngine)
    (reason description consequence : String) (tips : List String) (now : ℕ) :
    (s.triggerGameOver reason description consequence tips now).riskDecaying =
      s.riskDecaying := by
  unfold SimulationEngine.triggerGameOver
  split <;> rfl

/-- The engine state used to exhibit C8's state mutation: one control
change towards the fracture-pressure region and one tick. -/
def riskProbeEngine : SimulationEngine :=
  (engineInit.setControls { mudWeight := some 13 } 0).updateSimulation 1 0

set_option maxRecDepth 1000000 in
/-- C8 counterexample: calling `getRiskLevel()` changes the engine state —
it overwrites the internal `lastRiskLevel` tracking field (0 before the
call, 200/7 after). -/
theorem getRiskLevel_mutates_state :
    ((riskProbeEngine.getRiskLevel 2).2).lastRiskLevel ≠
      riskProbeEngine.lastRiskLevel := by
  with_unfolding_all decide

set_option maxHeartbeats 2000000 in
/-- C8 amended: `getRiskLevel()` returns the risk triple and leaves the
controls, equipment, time-series log, checkpoints, action log and clock
unchanged, but it is not read-only: it overwrites `lastRiskLevel` and
`riskDecaying`, may append timeline events, and (only) when the returned
level reaches 100 may flip the game-over state. -/
theorem getRiskLevel_effects (s : SimulationEngine) (now : ℕ) :
    ((s.getRiskLevel now).2.controls = s.controls) ∧
    ((s.getRiskLevel now).2.equipmentStatus = s.equipmentStatus) ∧
    ((s.getRiskLevel now).2.logData = s.logData) ∧
    ((s.getRiskLevel now).2.checkpoints = s.checkpoints) ∧
    ((s.getRiskLevel now).2.actionLog = s.actionLog) ∧
    ((s.getRiskLevel now).2.simulationTime = s.simulationTime) ∧
    ((s.getRiskLevel now).2.lastRiskLevel = (s.getRiskLevel now).1.1) ∧
    ((s.getRiskLevel now).2.riskDecaying = (s.getRiskLevel now).1.2.2) ∧
    ((s.getRiskLevel now).1.1 < 100 →
      (s.getRiskLevel now).2.gameOver = s.gameOver) := by
  unfold SimulationEngine.getRiskLevel
  dsimp only
  refine ⟨?_, ?_, ?_, ?_, ?_, ?_, ?_, ?_, ?_⟩
  · simp [apply_ite SimulationEngine.controls, triggerGameOver_controls,
      addTimelineEvent_controls]
  · simp [apply_ite SimulationEngine.equipmentStatus,
      triggerGameOver_equipmentStatus, addTimelineEvent_equipmentStatus]
  · simp [apply_ite SimulationEngine.logData, triggerGameOver_logData,
      addTimelineEvent_logData]
  · simp [apply_ite SimulationEngine.checkpoints,
      triggerGameOver_checkpoints, addTimelineEvent_checkpoints]
  · simp [apply_ite SimulationEngine.actionLog, triggerGameOver_actionLog,
      addTimelineEvent_actionLog]
  · simp [apply_ite SimulationEngine.simulationTime,
      triggerGameOver_simulationTime, addTimelineEvent_simulationTime]
  · simp [apply_ite SimulationEngine.lastRiskLevel,
      triggerGameOver_lastRiskLevel]
  · simp [apply_ite SimulationEngine.riskDecaying,
      triggerGameOver_riskDecaying]
  · intro h
    rw [if_neg (fun hc => absurd hc.1 (not_le.mpr h))]
    simp [apply_ite SimulationEngine.gameOver, addTimelineEvent_gameOver]

/-- Witness for C8's amended theorem at the fresh engine (risk 0 < 100). -/
theorem getRiskLevel_effects_witness :
    ((engineInit.getRiskLevel 0).2.controls = engineInit.controls) ∧
    ((engineInit.getRiskLevel 0).2.gameOver = engineInit.gameOver) :=
  ⟨(getRiskLevel_effects engineInit 0).1,
    (getRiskLevel_effects engineInit 0).2.2.2.2.2.2.2.2
      (by with_unfolding_all decide)⟩

/-! C3: the kick branch of `checkForEvents` (the only consumer of
`Math.random()`) is never entered in Scenario 2, for any random draws. -/

lemma checkForEvents_rand_irrel (s : SimulationEngine)
    (props : FormationProps) (now : ℕ) (r : ℚ)
    (h : ¬ kickConditionHolds s props) :
    s.checkForEvents props r now = s.checkForEvents props 0 now := by
  unfold SimulationEngine.checkForEvents
  simp only [if_neg h]

set_option maxHeartbeats 1000000 in
lemma updateSimulation_rand_irrel (s : SimulationEngine) (now : ℕ) (r : ℚ)
    (h : ¬ kickConditionHolds (s.tickPhase1 now).1 (s.tickPhase1 now).2.1) :
    s.updateSimulation now r = s.updateSimulation now 0 := by
  unfold SimulationEngine.updateSimulation
  split
  · rfl
  · dsimp only
    unfold SimulationEngine.tickPhase2
    rw [checkForEvents_rand_irrel _ _ _ _ h]

/-- The Scenario-2 configuration: bit at 3000 ft inside a layer with base
pore pressure 15.5 ppg, mud weight set to 8.0. -/
def scenario2Engine : SimulationEngine :=
  ({ engineInit with
    formation := some
      ⟨[⟨"Deep Reservoir", 2800, 600, 15.5, 17.0, 0.3, "sandstone",
        some 0.45⟩]⟩,
    currentData := { initialData with bitDepth := 3000 } }).setControls
    { mudWeight := some 8 } 0

set_option maxRecDepth 1000000 in
/-- C3: in Scenario 2 no kick-type event is appended within 5 ticks, for
any sequence of random draws — the kick guard compares the pore pressure
in ppg (≈15.5) against the hydrostatic pressure in psi (≈1248), so it is
false at depth 3000 with mud weight 8.0. -/
theorem no_kick_event_within_five_ticks (r1 r2 r3 r4 r5 : ℚ) :
    (((((scenario2Engine.updateSimulation 1 r1).updateSimulation 2
      r2).updateSimulation 3 r3).updateSimulation 4 r4).updateSimulation 5
      r5).eventLog.filter (fun e => e.type == "kick") = [] := by
  rw [updateSimulation_rand_irrel scenario2Engine 1 r1
    (by with_unfolding_all decide)]
  rw [updateSimulation_rand_irrel _ 2 r2 (by with_unfolding_all decide)]
  rw [updateSimulation_rand_irrel _ 3 r3 (by with_unfolding_all decide)]
  rw [updateSimulation_rand_irrel _ 4 r4 (by with_unfolding_all decide)]
  rw [updateSimulation_rand_irrel _ 5 r5 (by with_unfolding_all decide)]
  with_unfolding_all decide
end Drilling
